import Mathlib

/-!
Verification of the hybrid exclusion classification engine
(`agents/exclusion_agent.py` of the assessment tool).

The Python code is shallowly embedded: pandas frames become lists of row
states, cells become an inductive `Cell` type, the word-boundary regular
expression used by `_kw_mask` becomes a small token matcher, and the
AI-response handling of `_ai_review` becomes a total function on a model
of decoded JSON values.  Python `str.lower`, `str.strip`, `str.upper` are
modelled on basic-latin characters, which covers every keyword and column
name the agent manipulates.
-/

namespace ExclusionModel

/-! ### Python style character and string helpers -/

/-- Upper-case / lower-case pairs of the basic latin range, which is all
the agent ever compares. -/
def caseTable : List (Char × Char) :=
  [('A', 'a'), ('B', 'b'), ('C', 'c'), ('D', 'd'), ('E', 'e'), ('F', 'f'),
   ('G', 'g'), ('H', 'h'), ('I', 'i'), ('J', 'j'), ('K', 'k'), ('L', 'l'),
   ('M', 'm'), ('N', 'n'), ('O', 'o'), ('P', 'p'), ('Q', 'q'), ('R', 'r'),
   ('S', 's'), ('T', 't'), ('U', 'u'), ('V', 'v'), ('W', 'w'), ('X', 'x'),
   ('Y', 'y'), ('Z', 'z')]

/-- Model of lower-casing a single character. -/
def lowerChar (c : Char) : Char :=
  (((caseTable.find? (fun p => p.1 = c)).map Prod.snd).getD c)

/-- Model of upper-casing a single character. -/
def upperChar (c : Char) : Char :=
  (((caseTable.find? (fun p => p.2 = c)).map Prod.fst).getD c)

/-- Whitespace recognised by Python `str.strip`. -/
def isSpaceChar (c : Char) : Bool :=
  c = ' ' || c = '\t' || c = '\n' || c = '\r' || c = '\x0b' || c = '\x0c'

def lowerList (s : List Char) : List Char := s.map lowerChar

def upperList (s : List Char) : List Char := s.map upperChar

def stripList (s : List Char) : List Char :=
  ((s.dropWhile isSpaceChar).reverse.dropWhile isSpaceChar).reverse

/-- Python `str.lower()`. -/
def pyLower (s : String) : String := ⟨lowerList s.data⟩

/-- Python `str.upper()`. -/
def pyUpper (s : String) : String := ⟨upperList s.data⟩

/-- Python `str.strip()`. -/
def pyStrip (s : String) : String := ⟨stripList s.data⟩

/-- Python `str.strip().lower()`, the normalisation the agent applies to
names and decisions. -/
def pyNorm (s : String) : String := pyLower (pyStrip s)

/-- Word character in the sense of the regex `\b` boundary (`\w`):
alphanumeric or underscore. -/
def isWordChar (c : Char) : Bool := c.isAlphanum || c = '_'

/-! ### Model of the word-boundary regular expression of `_kw_mask`

`_kw_mask` builds the pattern `r"\b" + re.escape(kw) + r"\b"` and runs a
case-insensitive search.  A pattern produced this way consists only of
literal characters (possibly backslash-escaped) and the two `\b`
assertions, so the regex fragment is modelled as a list of tokens.  A
pattern string that does not fit this shape (for instance a trailing lone
backslash, or an unescaped metacharacter, which this model does not
support) fails to parse, which models `re.error`. -/

inductive RTok where
  | lit : Char → RTok
  | bnd : RTok
deriving DecidableEq

/-- Unescaped regex metacharacters that the token model rejects. -/
def reMetaChar (c : Char) : Bool :=
  c = '(' || c = ')' || c = '[' || c = ']' || c = '*' || c = '+' ||
  c = '?' || c = '|' || c = '^' || c = '$' || c = '.'

def parseRe : List Char → Option (List RTok)
  | [] => some []
  | '\\' :: [] => none
  | '\\' :: c :: rest =>
    (parseRe rest).map (fun ts => (if c = 'b' then RTok.bnd else RTok.lit c) :: ts)
  | c :: rest =>
    if reMetaChar c then none
    else (parseRe rest).map (fun ts => RTok.lit c :: ts)

/-- Characters escaped by `re.escape` (Python 3.7+ escapes exactly the
characters that can have special meaning; braces are written numerically
here). -/
def reEscapeChar (c : Char) : Bool :=
  c = '(' || c = ')' || c = '[' || c = ']' ||
  c = Char.ofNat 123 || c = Char.ofNat 125 ||
  c = '?' || c = '*' || c = '+' || c = '-' || c = '|' || c = '^' ||
  c = '$' || c = '\\' || c = '.' || c = '&' || c = '~' || c = '#' ||
  c = ' ' || c = '\t' || c = '\n' || c = '\r' || c = '\x0b' || c = '\x0c'

/-- Model of `re.escape`. -/
def reEscape (s : List Char) : List Char :=
  s.flatMap (fun c => if reEscapeChar c then ['\\', c] else [c])

/-- The pattern `r"\b" + re.escape(kw) + r"\b"` built by `_kw_mask`. -/
def mkPattern (kw : List Char) : List Char :=
  '\\' :: 'b' :: (reEscape kw ++ ['\\', 'b'])

/-- Case-insensitive character comparison (the `case=False` flag of
`Series.str.contains`). -/
def charCI (a b : Char) : Bool := lowerChar a = lowerChar b

/-- Whether position `i` of `s` holds a word character (off-string
positions count as non-word). -/
def wordishAt (s : List Char) (i : Nat) : Bool :=
  match s[i]? with
  | some c => isWordChar c
  | none => false

/-- The `\b` assertion at gap position `i` (between `i-1` and `i`). -/
def bndAt (s : List Char) (i : Nat) : Bool :=
  (if i = 0 then false else wordishAt s (i - 1)) != wordishAt s i

def matchToksAt : List RTok → List Char → Nat → Bool
  | [], _, _ => true
  | RTok.bnd :: ts, s, i => bndAt s i && matchToksAt ts s i
  | RTok.lit c :: ts, s, i =>
    match s[i]? with
    | some d => charCI d c && matchToksAt ts s (i + 1)
    | none => false

/-- Regex search: the token sequence matches starting at some position. -/
def reSearch (toks : List RTok) (s : List Char) : Bool :=
  (List.range (s.length + 1)).any (fun i => matchToksAt toks s i)

/-- Case-insensitive occurrence of `kw` at position `i` of `s`. -/
def occursAtCI (s kw : List Char) (i : Nat) : Bool :=
  decide (lowerList ((s.drop i).take kw.length) = lowerList kw)

/-- Case-insensitive substring containment, the fallback branch of
`_kw_mask` (`s.str.contains(kw, case=False, na=False)` for keywords free
of metacharacters). -/
def substrCI (s kw : List Char) : Bool :=
  (List.range (s.length + 1)).any (occursAtCI s kw)

/-- The `try`/`except re.error` body of `_kw_mask`: run the boundary
pattern if it is structurally valid, otherwise fall back to plain
case-insensitive containment of the keyword. -/
def maskWithPattern (p kw s : List Char) : Bool :=
  match parseRe p with
  | some toks => reSearch toks s
  | none => substrCI s kw

/-- Embedding of `Agent._kw_mask` applied to one cell of the series. -/
def kwMaskStr (s kw : String) : Bool :=
  if pyNorm kw = "" then false
  else maskWithPattern (mkPattern (pyNorm kw).data) (pyNorm kw).data s.data

/-! ### Flag coercion (`_bool_from_cell`) -/

/-- A pandas cell as seen by the agent: missing (`NaN`/`None`), a native
boolean, an integer, or a string. -/
inductive Cell where
  | na : Cell
  | bool : Bool → Cell
  | int : Int → Cell
  | str : String → Cell
deriving DecidableEq

/-- Python `str(v)` on the cell values above. -/
def pyStr : Cell → String
  | Cell.na => "nan"
  | Cell.bool true => "True"
  | Cell.bool false => "False"
  | Cell.int n => toString n
  | Cell.str s => s

/-- The truthy token set of `_bool_from_cell`. -/
def trueTokens : List String := ["1", "true", "t", "yes", "y"]

/-- Embedding of `Agent._bool_from_cell`. -/
def bool_from_cell : Cell → Bool
  | Cell.na => false
  | Cell.bool b => b
  | v => trueTokens.contains (pyNorm (pyStr v))

/-! ### Rows, decisions and the deterministic pass -/

/-- One row of the assessed frame, carrying the columns the exclusion
agent reads together with its two output columns
(`ExclusionDecision` and the audit-note column).  A text column that is
absent from the frame is modelled as the empty string, which is what the
`df.get(..., pd.Series(""))` defaulting in `_manual_exclusion_pass`
produces. -/
structure RowState where
  name : String
  l1 : String
  l2 : String
  cells : List (String × Cell)
  decision : String
  issues : String
deriving DecidableEq

/-- Value of a flag column for a row (pandas guarantees a cell for every
column of the schema; a missing entry is `NaN`). -/
def cellOf (r : RowState) (c : String) : Cell :=
  (((r.cells.find? (fun p => p.1 = c)).map Prod.snd).getD Cell.na)

/-- Row counterpart of the `set_if_empty` helper of
`_manual_exclusion_pass`: write the decision only where the current
decision is blank after stripping. -/
def setIfEmpty (r : RowState) (v : String) : RowState :=
  if pyStrip r.decision = "" then { r with decision := v } else r

/-- Append an audit note (the `+=` on the issue column). -/
def addIssue (r : RowState) (n : String) : RowState :=
  { r with issues := r.issues ++ n }

/-- The four restricted-but-allowed groups handled by the agent. -/
inductive GroupKey where
  | alcohol
  | cbd_thc
  | nicotine
  | otc_med
deriving DecidableEq

/-- The canonical merchant flag column per group (`self.flag_columns`). -/
def flag_columns : GroupKey → String
  | GroupKey.alcohol => "IS_ALCOHOL"
  | GroupKey.cbd_thc => "IS_CBD"
  | GroupKey.nicotine => "IS_NICOTINE"
  | GroupKey.otc_med => "IS_OTC_MED"

/-- Python `group_key.replace("_", "/").title()` as used in the audit
notes. -/
def groupTitle : GroupKey → String
  | GroupKey.alcohol => "Alcohol"
  | GroupKey.cbd_thc => "Cbd/Thc"
  | GroupKey.nicotine => "Nicotine"
  | GroupKey.otc_med => "Otc/Med"

/-- Configuration of one engine instance: keyword sets built from the
policy document plus the confidence threshold (cf. `Agent.__init__`). -/
structure AgentCfg where
  absolute_keywords : List String
  groupKeywords : GroupKey → List String
  ai_confidence_threshold : ℚ

/-- Keyword match of one row: `_kw_mask` applied to the lower-cased
`L1_CATEGORY`, `L2_CATEGORY` and `CONSUMER_FACING_ITEM_NAME` series and
combined with `|`. -/
def rowMatch (r : RowState) (kw : String) : Bool :=
  kwMaskStr (pyLower r.l1) kw || kwMaskStr (pyLower r.l2) kw || kwMaskStr (pyLower r.name) kw

/-- Audit note of the absolute-prohibition branch (the source stores the
warning emoji in a mangled encoding; the intended glyph is used here). -/
def absNote : String := "⚠️ Auto Exclude (Manual): Absolute prohibition keyword matched. "

/-- Absolute-prohibition pass of `_manual_exclusion_pass`, restricted to
one row: append the note on a keyword match, then set the decision where
it is still blank. -/
def applyAbs (cfg : AgentCfg) (r : RowState) : RowState :=
  if cfg.absolute_keywords.any (rowMatch r) then
    setIfEmpty (addIssue r absNote) "Auto Exclude"
  else r

/-- The synonym table of `_find_flag_col`. -/
def synonymsFor (want : String) : List String :=
  if want = "IS_ALCOHOL" then
    ["ALCOHOL", "IS-ALCOHOL", "AGE_RESTRICTED", "IS_AGE_RESTRICTED"]
  else if want = "IS_CBD" then
    ["CBD", "IS-CBD", "IS_HEMP", "HEMP", "THC", "IS_THC"]
  else if want = "IS_NICOTINE" then
    ["NICOTINE", "IS-NICOTINE", "NRT", "TOBACCO", "IS_TOBACCO"]
  else if want = "IS_OTC_MED" then
    ["OTC", "OTC_MED", "OTC-MED", "IS_OTC", "COUGH_COLD", "COUGH/COLD"]
  else []

/-- Embedding of `Agent._find_flag_col`: case-insensitive exact match on
the schema first, then the synonym table. -/
def findFlagCol (cols : List String) (desired : String) : Option String :=
  let d := pyUpper desired
  match cols.find? (fun c => pyUpper c = d) with
  | some c => some c
  | none => cols.find? (fun c => pyUpper c = d || (synonymsFor d).contains (pyUpper c))

/-- Compliant-item audit note of `handle_group` (quote characters of the
source text are omitted). -/
def compliantNote (g : GroupKey) : String :=
  "ℹ️ Restricted (Compliant): " ++ groupTitle g ++ " (merchant flag present). "

/-- Missing-flag audit note of `handle_group`. -/
def missingFlagNote (g : GroupKey) : String :=
  "⚠️ Review: " ++ groupTitle g ++ " suspected but missing merchant flag " ++ flag_columns g ++ ". "

/-- Flag-column-not-found audit note of `handle_group`. -/
def notFoundNote (g : GroupKey) : String :=
  "⚠️ Review: " ++ groupTitle g ++ " suspected but flag column " ++ flag_columns g ++ " not found. "

/-- Embedding of the `handle_group` closure of `_manual_exclusion_pass`,
restricted to one row.  `cols` is the schema of the frame. -/
def handle_group (cfg : AgentCfg) (cols : List String) (g : GroupKey) (r : RowState) : RowState :=
  if (cfg.groupKeywords g).isEmpty then r
  else
    match findFlagCol cols (flag_columns g) with
    | some col =>
      if (cfg.groupKeywords g).any (rowMatch r) then
        if bool_from_cell (cellOf r col) then
          setIfEmpty (addIssue r (compliantNote g)) "Restricted (Compliant)"
        else
          setIfEmpty (addIssue r (missingFlagNote g)) "Review"
      else r
    | none =>
      if (cfg.groupKeywords g).any (rowMatch r) then
        setIfEmpty (addIssue r (notFoundNote g)) "Review"
      else r

/-- The whole deterministic pass on one row: the absolute pass followed by
the four group passes in the order of the source. -/
def manualPassRow (cfg : AgentCfg) (cols : List String) (r : RowState) : RowState :=
  handle_group cfg cols GroupKey.otc_med
    (handle_group cfg cols GroupKey.nicotine
      (handle_group cfg cols GroupKey.cbd_thc
        (handle_group cfg cols GroupKey.alcohol (applyAbs cfg r))))

/-! ### The AI phase -/

/-- An AI verdict as stored by `_ai_review`: decision (already
lower-cased), reason text, confidence. -/
structure Verdict where
  decision : String
  reason : String
  confidence : ℚ
deriving DecidableEq

/-- Embedding of `_ambiguous_mask` for one row. -/
def ambiguousRow (r : RowState) : Bool :=
  pyNorm r.decision = "" || pyNorm r.decision = "review"

/-- Dictionary lookup in a result/cache map. -/
def lookupResult (m : List (String × Verdict)) (k : String) : Option Verdict :=
  ((m.find? (fun p => p.1 = k)).map Prod.snd)

/-- Dictionary update `m[k] = v`. -/
def upsert (m : List (String × Verdict)) (k : String) (v : Verdict) :
    List (String × Verdict) :=
  m.filter (fun p => ¬ p.1 = k) ++ [(k, v)]

/-- Rendering of a confidence value inside a note (stands in for the
two-decimal float formatting of the source). -/
def confText (q : ℚ) : String := toString q

def aiInfoNote (v : Verdict) : String :=
  " 🤖 AI note: " ++ v.reason ++ " (conf " ++ confText v.confidence ++ ")."

def aiExcludeNote (v : Verdict) : String :=
  " 🤖 Exclude: " ++ v.reason ++ " (conf " ++ confText v.confidence ++ ")."

def aiAllowNote (v : Verdict) : String :=
  " 🤖 Allow: " ++ v.reason ++ " (conf " ++ confText v.confidence ++ ")."

def aiReviewNote (v : Verdict) : String :=
  " 🤖 Review: " ++ v.reason ++ " (conf " ++ confText v.confidence ++ ")."

def aiLowConfNote (v : Verdict) : String :=
  " 🤖 Low confidence: " ++ v.reason ++ " (conf " ++ confText v.confidence ++ ")."

/-- The per-row body of `_apply_ai_decisions` once a verdict has been
found for the row: preserve any non-blank decision (appending only the
informational note), otherwise gate on the confidence threshold. -/
def applyVerdictRow (thr : ℚ) (r : RowState) (v : Verdict) : RowState :=
  if ¬ pyStrip r.decision = "" then
    addIssue r (aiInfoNote v)
  else if thr ≤ v.confidence then
    if v.decision = "exclude" then
      addIssue { r with decision := "Auto Exclude" } (aiExcludeNote v)
    else if v.decision = "allow" then
      addIssue { r with decision := "Allow" } (aiAllowNote v)
    else
      addIssue { r with decision := "Review" } (aiReviewNote v)
  else
    addIssue { r with decision := "Review" } (aiLowConfNote v)

/-- Embedding of `_apply_ai_decisions` for one row: rows outside the
ambiguous mask are not visited; visited rows look up the results map
under the normalised item name. -/
def aiPassRow (thr : ℚ) (results : List (String × Verdict)) (r : RowState) : RowState :=
  if ambiguousRow r then
    match lookupResult results (pyNorm r.name) with
    | none => r
    | some v => applyVerdictRow thr r v
  else r

/-- One row of the engine run with the AI pass enabled: the deterministic
pass followed by `_apply_ai_decisions` with the verdicts `results`
returned by the external classifier. -/
def fullRunRow (cfg : AgentCfg) (cols : List String) (results : List (String × Verdict))
    (r : RowState) : RowState :=
  aiPassRow cfg.ai_confidence_threshold results (manualPassRow cfg cols r)

/-! ### Cache keys and the ambiguous-item gathering -/

/-- Python `str(row.get(c, ""))` for the raw flag columns of the cache
key. -/
def cellStrOrEmpty (r : RowState) (c : String) : String :=
  match r.cells.find? (fun p => p.1 = c) with
  | some p => pyStr p.2
  | none => ""

/-- Embedding of `Agent._item_key`: the composite cache key of a row. -/
def item_key (r : RowState) : String :=
  String.intercalate "|"
    [pyNorm r.name, pyNorm r.l1, pyNorm r.l2,
     cellStrOrEmpty r "IS_ALCOHOL", cellStrOrEmpty r "IS_CBD",
     cellStrOrEmpty r "IS_NICOTINE", cellStrOrEmpty r "IS_OTC_MED"]

/-- An item payload sent to the external classifier
(`_gather_ai_items`). -/
structure AIItem where
  item_name : String
  l1_category : String
  l2_category : String
  is_alcohol_flag : Option Cell
  is_cbd_flag : Option Cell
  is_nicotine_flag : Option Cell
  is_otc_med_flag : Option Cell
deriving DecidableEq

def lookupCell (r : RowState) (c : String) : Option Cell :=
  ((r.cells.find? (fun p => p.1 = c)).map Prod.snd)

def mkAIItem (r : RowState) : AIItem :=
  { item_name := r.name
  , l1_category := r.l1
  , l2_category := r.l2
  , is_alcohol_flag := lookupCell r "IS_ALCOHOL"
  , is_cbd_flag := lookupCell r "IS_CBD"
  , is_nicotine_flag := lookupCell r "IS_NICOTINE"
  , is_otc_med_flag := lookupCell r "IS_OTC_MED" }

/-- Embedding of `Agent._gather_ai_items` over the rows of the ambiguous
sub-frame: a row is skipped only when its composite `item_key` is present
in the cache. -/
def gather_ai_items (cache : List (String × Verdict)) (rows : List RowState) : List AIItem :=
  rows.filterMap (fun r =>
    if (lookupResult cache (item_key r)).isSome then none else some (mkAIItem r))

/-! ### Model of the AI response handling (`_ai_review`)

The decoded JSON value is modelled by `JVal`; the object returned by
`call_ai` (a parsed dictionary, a raw string, or any other Python value)
by `RawResp`.  Besides the results that `_ai_review` would return, the
model records whether an uncaught exception escapes the function (the
`try` of the source only guards the `json.loads` call), because such an
exception aborts the whole batch loop of `assess`. -/

inductive JVal where
  | null : JVal
  | jbool : Bool → JVal
  | jnum : ℚ → JVal
  | jstr : String → JVal
  | jarr : List JVal → JVal
  | jobj : List (String × JVal) → JVal

def jLookup (fs : List (String × JVal)) (k : String) : Option JVal :=
  ((fs.find? (fun p => p.1 = k)).map Prod.snd)

/-- Python `str()` on a decoded JSON value (container renderings are
abstracted; the agent only ever formats scalars). -/
def pyStrOfJ : JVal → String
  | JVal.null => "None"
  | JVal.jbool true => "True"
  | JVal.jbool false => "False"
  | JVal.jnum q => toString q
  | JVal.jstr s => s
  | JVal.jarr _ => "<list>"
  | JVal.jobj _ => "<dict>"

def digitsVal (cs : List Char) : Option Nat :=
  if cs.all Char.isDigit then
    some (cs.foldl (fun a c => a * 10 + (c.toNat - 48)) 0)
  else none

/-- Python `float()` on a plain decimal string (exponents and the
special spellings are out of scope of this model). -/
def pyFloatOfString (s : String) : Option ℚ :=
  let t := stripList s.data
  let signed : ℚ × List Char :=
    match t with
    | '-' :: rest => (-1, rest)
    | '+' :: rest => (1, rest)
    | _ => (1, t)
  let u := signed.2
  let intPart := u.takeWhile (fun c => ¬ c = '.')
  let rest := u.dropWhile (fun c => ¬ c = '.')
  match rest with
  | [] => (digitsVal intPart).map (fun n => signed.1 * n)
  | _ :: frac =>
    if intPart.isEmpty && frac.isEmpty then none
    else
      match (if intPart.isEmpty then some 0 else digitsVal intPart),
            (if frac.isEmpty then some 0 else digitsVal frac) with
      | some a, some b => some (signed.1 * ((a : ℚ) + mkRat b (10 ^ frac.length)))
      | _, _ => none

/-- Python `float(x)` on a decoded JSON value; the error string names the
exception class that escapes. -/
def jToFloat : JVal → Except String ℚ
  | JVal.jnum q => Except.ok q
  | JVal.jbool b => Except.ok (if b then 1 else 0)
  | JVal.jstr s =>
    match pyFloatOfString s with
    | some q => Except.ok q
    | none => Except.error "ValueError"
  | _ => Except.error "TypeError"

/-- Processing of one entry of the `results` array: only a JSON object
has the `.get` interface; everything else raises. -/
def verdictOfJ : JVal → Except String (String × Verdict)
  | JVal.jobj fs =>
    let nm := pyNorm (pyStrOfJ ((jLookup fs "item_name").getD (JVal.jstr "")))
    let dec := pyLower (pyStrOfJ ((jLookup fs "decision").getD (JVal.jstr "review")))
    let reason := pyStrOfJ ((jLookup fs "reason").getD (JVal.jstr ""))
    match jToFloat ((jLookup fs "confidence").getD (JVal.jnum 0)) with
    | Except.ok q => Except.ok (nm, { decision := dec, reason := reason, confidence := q })
    | Except.error e => Except.error e
  | _ => Except.error "AttributeError"

/-- The accumulation loop of `_ai_review`: entries processed so far (all
of them also written to the shared cache as the loop runs) together with
the exception, if any, that aborts the loop. -/
def goResults : List JVal → List (String × Verdict) →
    List (String × Verdict) × Option String
  | [], acc => (acc, none)
  | x :: xs, acc =>
    match verdictOfJ x with
    | Except.ok (nm, v) => goResults xs (upsert acc nm v)
    | Except.error e => (acc, some e)

/-- Iteration of `for r in data.get("results", [])` over a decoded
value. Iterating a non-empty string or dictionary yields scalar elements
whose `.get` raises; iterating any non-iterable raises `TypeError`. -/
def resultsLoop : JVal → List (String × Verdict) × Option String
  | JVal.jarr xs => goResults xs []
  | JVal.jstr s => if s = "" then ([], none) else ([], some "AttributeError")
  | JVal.jobj fs => if fs.isEmpty then ([], none) else ([], some "AttributeError")
  | _ => ([], some "TypeError")

/-- The body of `_ai_review` once `data` is available: `data.get` is only
defined on a dictionary. -/
def ai_reviewData : JVal → List (String × Verdict) × Option String
  | JVal.jobj fs => resultsLoop ((jLookup fs "results").getD (JVal.jarr []))
  | _ => ([], some "AttributeError")

/-- The value returned by `BaseAgent.call_ai` as seen by `_ai_review`:
either an already-parsed dictionary (including the `error` dictionary
produced on transport failures), a string that parses as JSON, a string
that fails `json.loads` (caught: empty result), or a non-string object on
which `json.loads` raises a `TypeError` (also caught). -/
inductive RawResp where
  | dict : List (String × JVal) → RawResp
  | strOk : JVal → RawResp
  | strBad : RawResp
  | nonStrOther : RawResp

/-- Embedding of `Agent._ai_review` for one batch: resolved entries plus
the exception, if any, that escapes the call. -/
def ai_review : RawResp → List (String × Verdict) × Option String
  | RawResp.strBad => ([], none)
  | RawResp.nonStrOther => ([], none)
  | RawResp.dict fs => ai_reviewData (JVal.jobj fs)
  | RawResp.strOk v => ai_reviewData v

/-- Cache content after one `_ai_review` call (every processed entry is
written to the cache even when a later entry raises). -/
def cacheAfter (cache : List (String × Verdict)) (resp : RawResp) :
    List (String × Verdict) :=
  ((ai_review resp).1).foldl (fun c p => upsert c p.1 p.2) cache

/-- The batch loop of `assess`: results of successive batches are merged
into one dictionary; an exception escaping `_ai_review` aborts the loop
(and hence the remaining batches). -/
def runBatchesAux : List RawResp → List (String × Verdict) →
    Except String (List (String × Verdict))
  | [], acc => Except.ok acc
  | b :: bs, acc =>
    match ai_review b with
    | (entries, none) => runBatchesAux bs (entries.foldl (fun a p => upsert a p.1 p.2) acc)
    | (_, some e) => Except.error e

def runBatches (batches : List RawResp) : Except String (List (String × Verdict)) :=
  runBatchesAux batches []

/-! ### Policy loading (`_load_guidelines` and the keyword builders) -/

/-- One entry of the `restrictions` list of the YAML document, after
parsing (values of mappings and elements of nested lists are already
string-rendered here). -/
inductive YEntry where
  | ystr : String → YEntry
  | ydict : List (String × String) → YEntry
  | ylist : List String → YEntry
  | yother : YEntry

/-- The possible outcomes of opening and parsing
`restricted_items.yaml`: the two exception cases are caught by the
`except` of `_load_guidelines`; an empty or key-less document yields the
empty entry list. -/
inductive PolicyLoad where
  | missingFile : PolicyLoad
  | parseError : PolicyLoad
  | content : List YEntry → PolicyLoad

/-- Embedding of `Agent._load_guidelines`: never fails, returning the
flattened raw strings (or the empty list after a logged exception). -/
def load_guidelines : PolicyLoad → List String
  | PolicyLoad.missingFile => []
  | PolicyLoad.parseError => []
  | PolicyLoad.content es =>
    es.flatMap (fun e =>
      match e with
      | YEntry.ystr s => [s]
      | YEntry.ydict kvs => kvs.map (fun p => p.1 ++ ": " ++ p.2)
      | YEntry.ylist xs => xs
      | YEntry.yother => [])

/-- Python `needle in haystack` on strings (case-sensitive substring
containment). -/
def pyIn (needle haystack : String) : Bool :=
  (List.range (haystack.data.length + 1)).any
    (fun i => decide ((haystack.data.drop i).take needle.data.length = needle.data))

/-- Lexicographic comparison of characters by code point, as Python
compares strings. -/
def listLeB : List Char → List Char → Bool
  | [], _ => true
  | _ :: _, [] => false
  | a :: as, b :: bs => if a = b then listLeB as bs else decide (a.toNat < b.toNat)

def strLeB (a b : String) : Bool := listLeB a.data b.data

def insertSorted (x : String) : List String → List String
  | [] => [x]
  | y :: ys => if strLeB x y then x :: y :: ys else y :: insertSorted x ys

def sortStrings : List String → List String
  | [] => []
  | x :: xs => insertSorted x (sortStrings xs)

/-- Python `sorted(set(...))` on a list of strings. -/
def sortedDedup (l : List String) : List String :=
  sortStrings (l.dedup)

/-- Embedding of `Agent._build_absolute_keywords`. -/
def build_absolute_keywords (raw : List String) : List String :=
  let text := String.intercalate " | " (raw.map pyLower)
  let giftcard :=
    if pyIn "gift card" text then ["gift card", "gift cards", "itunes card", "prepaid card"]
    else []
  let common :=
    (["weapon", "weapons", "ammo", "ammunition", "firearm", "gun", "taser",
      "pepper spray", "fireworks", "explosive", "grenade", "live animals",
      "lottery", "donation", "tips", "dry ice", "deposit items", "rental items",
      "water refills", "mlm", "propane tank refills"]).filter (fun kw => pyIn kw text)
  let kratom := if pyIn "kratom" text then ["kratom"] else []
  let hhc := if pyIn "hhc" text then ["hhc"] else []
  let phones := if pyIn "prepaid phone" text then ["prepaid phone", "prepaid phones"] else []
  let mags :=
    if pyIn "magazine" text || pyIn "newspaper" text then
      ["magazine", "magazines", "newspaper", "newspapers"]
    else []
  sortedDedup (giftcard ++ common ++ kratom ++ hhc ++ phones ++ mags)

/-- The hard-coded alcohol default keyword set of `Agent.__init__`. -/
def defaultAlcoholKeywords : List String :=
  ["beer", "wine", "vodka", "gin", "whiskey", "whisky", "tequila", "bourbon",
   "rum", "brandy", "cider", "seltzer", "liqueur", "mezcal", "sauvignon",
   "merlot", "cabernet", "pinot", "ipa", "stout", "lager", "pilsner"]

/-- Embedding of `Agent._build_flagged_groups`. -/
def build_flagged_groups (raw : List String) : GroupKey → List String :=
  let text := String.intercalate " | " (raw.map pyLower)
  fun g =>
    match g with
    | GroupKey.alcohol => []
    | GroupKey.cbd_thc =>
      if pyIn "hemp" text || pyIn "cannabis" text || pyIn "thc" text ||
          pyIn "delta-8" text || pyIn "delta-10" text then
        ["hemp", "cannabis", "thc", "delta-8", "delta-10", "delta 8", "delta 10", "cbd"]
      else []
    | GroupKey.nicotine =>
      if pyIn "tobacco" text || pyIn "vape" text || pyIn "nicotine" text ||
          pyIn "e-cigarette" text then
        ["tobacco", "vape", "nicotine", "e-cigarette", "ecigarette", "e cigarette",
         "e-cigs", "nicotine pouch", "nrt"]
      else []
    | GroupKey.otc_med =>
      if pyIn "pseudoephedrine" text || pyIn "pse" text || pyIn "cough" text ||
          pyIn "dex" text || pyIn "dextromethorphan" text then
        ["pseudoephedrine", "pse", "cough", "cold", "cough syrup", "dextromethorphan",
         "dxm", "paracetamol", "acetaminophen", "ibuprofen", "naproxen"]
      else []

/-- The configuration built by `Agent.__init__` for a policy-load
outcome: keyword extraction followed by the alcohol default fill-in; the
threshold is the hard-coded 0.70.  The construction is a total function,
which models the fact that engine construction always succeeds. -/
def buildAgentCfg (pl : PolicyLoad) : AgentCfg :=
  let g := load_guidelines pl
  let groups := build_flagged_groups g
  { absolute_keywords := build_absolute_keywords g
  , groupKeywords := fun k =>
      match k with
      | GroupKey.alcohol =>
        if (groups GroupKey.alcohol).isEmpty then defaultAlcoholKeywords
        else groups GroupKey.alcohol
      | k => groups k
  , ai_confidence_threshold := mkRat 7 10 }

/-! ### Concrete inputs used by counterexamples and witnesses -/

/-- A small configuration with only the alcohol group populated. -/
def cfgBeer : AgentCfg :=
  { absolute_keywords := []
  , groupKeywords := fun g =>
      match g with
      | GroupKey.alcohol => ["beer"]
      | _ => []
  , ai_confidence_threshold := mkRat 7 10 }

/-- A beer item whose merchant alcohol flag is false. -/
def rowCorona : RowState :=
  { name := "Corona Beer 6pk"
  , l1 := "Drinks"
  , l2 := ""
  , cells := [("IS_ALCOHOL", Cell.bool false)]
  , decision := ""
  , issues := "" }

/-- A high-confidence exclude verdict for the beer item. -/
def vCorona : Verdict :=
  { decision := "exclude", reason := "alcohol with missing flag", confidence := mkRat 9 10 }

def resultsCorona : List (String × Verdict) := [("corona beer 6pk", vCorona)]

/-- A configuration with one absolute-prohibition keyword. -/
def cfgFire : AgentCfg :=
  { absolute_keywords := ["fireworks"]
  , groupKeywords := fun _ => []
  , ai_confidence_threshold := mkRat 7 10 }

/-- An item matching an absolute prohibition. -/
def rowFire : RowState :=
  { name := "Fireworks Assortment"
  , l1 := "Seasonal"
  , l2 := ""
  , cells := []
  , decision := ""
  , issues := "" }

/-- An item that matches no rule and stays unresolved deterministically. -/
def rowBatteries : RowState :=
  { name := "AA Batteries"
  , l1 := "Electronics"
  , l2 := ""
  , cells := []
  , decision := ""
  , issues := "" }

/-- A well-formed response adjudicating the battery item. -/
def respBatteries : RawResp :=
  RawResp.dict
    [("results", JVal.jarr
      [JVal.jobj
        [("item_name", JVal.jstr "AA Batteries"),
         ("decision", JVal.jstr "allow"),
         ("reason", JVal.jstr "household battery"),
         ("confidence", JVal.jnum (mkRat 95 100))]])]

/-- A parseable response whose `results` entry is not an object. -/
def respBadShape : RawResp :=
  RawResp.dict [("results", JVal.jarr [JVal.jstr "oops"])]

/-- The verdict carried by `respBatteries`. -/
def vBatteries : Verdict :=
  { decision := "allow", reason := "household battery", confidence := mkRat 95 100 }

/-- The decision values the engine can leave behind (blank meaning
unresolved). -/
def decisionValues : List String :=
  ["", "Auto Exclude", "Restricted (Compliant)", "Review", "Allow"]

/-! ## Helper lemmas -/

theorem find?_pair_spec (f : Char → Bool) (t : List (Char × Char)) (c : Char)
    (h : ∀ p ∈ t, f p.2 = f p.1) :
    f (((t.find? (fun p => p.1 = c)).map Prod.snd).getD c) = f c := by
  induction t with
  | nil => rfl
  | cons p ps ih =>
    by_cases hc : p.1 = c
    · simp [List.find?, hc]
      rw [h p (by simp), hc]
    · simp only [List.find?, decide_eq_false hc]
      exact ih (fun q hq => h q (by simp [hq]))

theorem isWordChar_lowerChar (c : Char) : isWordChar (lowerChar c) = isWordChar c :=
  find?_pair_spec isWordChar caseTable c (by decide)

theorem isSpaceChar_lowerChar (c : Char) : isSpaceChar (lowerChar c) = isSpaceChar c :=
  find?_pair_spec isSpaceChar caseTable c (by decide)

theorem lowerList_length {s s' : List Char} (h : lowerList s = lowerList s') :
    s.length = s'.length := by
  have := congrArg List.length h
  simpa [lowerList] using this

theorem lower_getElem?_congr {s s' : List Char} (h : lowerList s = lowerList s') (i : Nat) :
    s[i]?.map lowerChar = s'[i]?.map lowerChar := by
  have := congrArg (fun l => l[i]?) h
  simpa [lowerList, List.getElem?_map] using this

theorem wordishAt_congr {s s' : List Char} (h : lowerList s = lowerList s') (i : Nat) :
    wordishAt s i = wordishAt s' i := by
  have hg := lower_getElem?_congr h i
  unfold wordishAt
  cases hs : s[i]? with
  | none =>
    cases hs' : s'[i]? with
    | none => rfl
    | some b => rw [hs, hs'] at hg; simp at hg
  | some a =>
    cases hs' : s'[i]? with
    | none => rw [hs, hs'] at hg; simp at hg
    | some b =>
      rw [hs, hs'] at hg
      have hab : lowerChar a = lowerChar b := by simpa using hg
      show isWordChar a = isWordChar b
      calc isWordChar a = isWordChar (lowerChar a) := (isWordChar_lowerChar a).symm
        _ = isWordChar (lowerChar b) := by rw [hab]
        _ = isWordChar b := isWordChar_lowerChar b

theorem bndAt_congr {s s' : List Char} (h : lowerList s = lowerList s') (i : Nat) :
    bndAt s i = bndAt s' i := by
  unfold bndAt
  rw [wordishAt_congr h i, wordishAt_congr h (i - 1)]

theorem matchToksAt_congr (toks : List RTok) {s s' : List Char}
    (h : lowerList s = lowerList s') : ∀ i, matchToksAt toks s i = matchToksAt toks s' i := by
  induction toks with
  | nil => intro i; rfl
  | cons t ts ih =>
    intro i
    cases t with
    | bnd =>
      show (bndAt s i && matchToksAt ts s i) = (bndAt s' i && matchToksAt ts s' i)
      rw [bndAt_congr h i, ih i]
    | lit c =>
      have hg := lower_getElem?_congr h i
      unfold matchToksAt
      cases hs : s[i]? with
      | none =>
        cases hs' : s'[i]? with
        | none => rfl
        | some b => rw [hs, hs'] at hg; simp at hg
      | some a =>
        cases hs' : s'[i]? with
        | none => rw [hs, hs'] at hg; simp at hg
        | some b =>
          rw [hs, hs'] at hg
          have hab : lowerChar a = lowerChar b := by simpa using hg
          show (charCI a c && matchToksAt ts s (i + 1)) = (charCI b c && matchToksAt ts s' (i + 1))
          unfold charCI
          rw [hab, ih (i + 1)]

theorem any_ext {α : Type} {l : List α} {f g : α → Bool} (h : ∀ x, f x = g x) :
    l.any f = l.any g := by
  rw [funext h]

theorem reSearch_congr (toks : List RTok) {s s' : List Char}
    (h : lowerList s = lowerList s') : reSearch toks s = reSearch toks s' := by
  unfold reSearch
  rw [lowerList_length h]
  exact any_ext (fun i => matchToksAt_congr toks h i)

theorem occursAtCI_congr {s s' kw kw' : List Char}
    (hs : lowerList s = lowerList s') (hk : lowerList kw = lowerList kw') (i : Nat) :
    occursAtCI s kw i = occursAtCI s' kw' i := by
  unfold occursAtCI
  have hlen : kw.length = kw'.length := lowerList_length hk
  have h1 : lowerList ((s.drop i).take kw.length) = lowerList ((s'.drop i).take kw'.length) := by
    simp only [lowerList, List.map_take, List.map_drop]
    rw [show s.map lowerChar = lowerList s from rfl, hs, hlen]
    rfl
  rw [h1, hk]

theorem substrCI_congr {s s' kw kw' : List Char}
    (hs : lowerList s = lowerList s') (hk : lowerList kw = lowerList kw') :
    substrCI s kw = substrCI s' kw' := by
  unfold substrCI
  rw [lowerList_length hs]
  exact any_ext (fun i => occursAtCI_congr hs hk i)

theorem lowerList_stripList (s : List Char) :
    lowerList (stripList s) = stripList (lowerList s) := by
  have hp : (isSpaceChar ∘ lowerChar) = isSpaceChar := funext isSpaceChar_lowerChar
  unfold lowerList stripList
  rw [List.dropWhile_map, hp, ← List.map_reverse, List.dropWhile_map, hp, ← List.map_reverse]

theorem pyNorm_congr {a b : String} (h : lowerList a.data = lowerList b.data) :
    pyNorm a = pyNorm b := by
  unfold pyNorm pyLower pyStrip
  apply congrArg String.mk
  show lowerList (stripList a.data) = lowerList (stripList b.data)
  rw [lowerList_stripList, lowerList_stripList, h]

theorem kwMaskStr_ci {s s' kw kw' : String}
    (hs : lowerList s.data = lowerList s'.data)
    (hk : lowerList kw.data = lowerList kw'.data) :
    kwMaskStr s kw = kwMaskStr s' kw' := by
  unfold kwMaskStr
  rw [pyNorm_congr hk]
  by_cases hk0 : pyNorm kw' = ""
  · simp [hk0]
  · simp only [if_neg hk0]
    unfold maskWithPattern
    cases hp : parseRe (mkPattern (pyNorm kw').data) with
    | some toks => exact reSearch_congr toks hs
    | none => exact substrCI_congr hs rfl



theorem addIssue_decision (r : RowState) (n : String) : (addIssue r n).decision = r.decision := rfl

theorem setIfEmpty_decision (r : RowState) (v : String) :
    (setIfEmpty r v).decision = r.decision ∨ (setIfEmpty r v).decision = v := by
  unfold setIfEmpty
  split
  · right; rfl
  · left; rfl

theorem setIfEmpty_decision_of_nonempty {r : RowState} (v : String)
    (h : ¬ pyStrip r.decision = "") : (setIfEmpty r v).decision = r.decision := by
  unfold setIfEmpty
  rw [if_neg h]

theorem applyAbs_decision (cfg : AgentCfg) (r : RowState) :
    (applyAbs cfg r).decision = r.decision ∨ (applyAbs cfg r).decision = "Auto Exclude" := by
  unfold applyAbs
  split
  · exact setIfEmpty_decision (addIssue r absNote) "Auto Exclude"
  · left; rfl

theorem applyAbs_decision_of_nonempty (cfg : AgentCfg) {r : RowState}
    (h : ¬ pyStrip r.decision = "") : (applyAbs cfg r).decision = r.decision := by
  unfold applyAbs
  split
  · exact setIfEmpty_decision_of_nonempty _ h
  · rfl

theorem handle_group_decision (cfg : AgentCfg) (cols : List String) (g : GroupKey) (r : RowState) :
    (handle_group cfg cols g r).decision = r.decision ∨
    (handle_group cfg cols g r).decision = "Restricted (Compliant)" ∨
    (handle_group cfg cols g r).decision = "Review" := by
  unfold handle_group
  split
  · left; rfl
  · split
    · split
      · split
        · rcases setIfEmpty_decision (addIssue r (compliantNote g)) "Restricted (Compliant)" with h | h
          · left; exact h
          · right; left; exact h
        · rcases setIfEmpty_decision (addIssue r (missingFlagNote g)) "Review" with h | h
          · left; exact h
          · right; right; exact h
      · left; rfl
    · split
      · rcases setIfEmpty_decision (addIssue r (notFoundNote g)) "Review" with h | h
        · left; exact h
        · right; right; exact h
      · left; rfl

theorem handle_group_decision_of_nonempty (cfg : AgentCfg) (cols : List String) (g : GroupKey)
    {r : RowState} (h : ¬ pyStrip r.decision = "") :
    (handle_group cfg cols g r).decision = r.decision := by
  unfold handle_group
  split
  · rfl
  · split
    · split
      · split
        · exact setIfEmpty_decision_of_nonempty _ h
        · exact setIfEmpty_decision_of_nonempty _ h
      · rfl
    · split
      · exact setIfEmpty_decision_of_nonempty _ h
      · rfl

theorem applyVerdictRow_decision (thr : ℚ) (r : RowState) (v : Verdict) :
    (applyVerdictRow thr r v).decision = r.decision ∨
    (applyVerdictRow thr r v).decision = "Auto Exclude" ∨
    (applyVerdictRow thr r v).decision = "Allow" ∨
    (applyVerdictRow thr r v).decision = "Review" := by
  unfold applyVerdictRow
  split_ifs <;> simp [addIssue]

theorem aiPassRow_decision (thr : ℚ) (results : List (String × Verdict)) (r : RowState) :
    (aiPassRow thr results r).decision = r.decision ∨
    (aiPassRow thr results r).decision = "Auto Exclude" ∨
    (aiPassRow thr results r).decision = "Allow" ∨
    (aiPassRow thr results r).decision = "Review" := by
  unfold aiPassRow
  split
  · split
    · left; rfl
    · exact applyVerdictRow_decision thr r _
  · left; rfl

theorem ambiguousRow_false_of_final {r : RowState}
    (h : r.decision = "Auto Exclude" ∨ r.decision = "Restricted (Compliant)") :
    ambiguousRow r = false := by
  rcases h with h | h <;> simp only [ambiguousRow, h] <;> decide

theorem aiPassRow_eq_of_final (thr : ℚ) (results : List (String × Verdict)) {r : RowState}
    (h : r.decision = "Auto Exclude" ∨ r.decision = "Restricted (Compliant)") :
    aiPassRow thr results r = r := by
  unfold aiPassRow
  rw [ambiguousRow_false_of_final h]
  simp

/-! ## Claim theorems -/



theorem handle_group_eq_some (cfg : AgentCfg) (cols : List String) (g : GroupKey)
    (r : RowState) (col : String)
    (hne : ¬ ((cfg.groupKeywords g).isEmpty = true))
    (hcol : findFlagCol cols (flag_columns g) = some col) :
    handle_group cfg cols g r =
      if (cfg.groupKeywords g).any (rowMatch r) then
        (if bool_from_cell (cellOf r col) then
          setIfEmpty (addIssue r (compliantNote g)) "Restricted (Compliant)"
        else
          setIfEmpty (addIssue r (missingFlagNote g)) "Review")
      else r := by
  unfold handle_group
  rw [if_neg hne, hcol]

theorem handle_group_eq_none (cfg : AgentCfg) (cols : List String) (g : GroupKey)
    (r : RowState)
    (hne : ¬ ((cfg.groupKeywords g).isEmpty = true))
    (hcol : findFlagCol cols (flag_columns g) = none) :
    handle_group cfg cols g r =
      if (cfg.groupKeywords g).any (rowMatch r) then
        setIfEmpty (addIssue r (notFoundNote g)) "Review"
      else r := by
  unfold handle_group
  rw [if_neg hne, hcol]

/-- C3: for every item to which an AI verdict is applied (blank decision),
a confidence at or above the threshold maps exclude to Auto Exclude,
allow to Allow and review to Review, while a confidence strictly below
the threshold forces Review; in particular an exclude verdict with
confidence 1/2 under threshold 7/10 yields Review. -/
theorem c3_confidence_gate (thr : ℚ) (r : RowState) (v : Verdict)
    (h : pyStrip r.decision = "") :
    (thr ≤ v.confidence →
      ((v.decision = "exclude" → (applyVerdictRow thr r v).decision = "Auto Exclude") ∧
       (v.decision = "allow" → (applyVerdictRow thr r v).decision = "Allow") ∧
       (v.decision = "review" → (applyVerdictRow thr r v).decision = "Review"))) ∧
    (v.confidence < thr → (applyVerdictRow thr r v).decision = "Review") ∧
    (applyVerdictRow (mkRat 7 10) rowBatteries
        { decision := "exclude", reason := "low", confidence := mkRat 1 2 }).decision
      = "Review" := by
  refine ⟨?_, ?_, ?_⟩
  · intro hconf
    unfold applyVerdictRow
    rw [if_neg (not_not_intro h), if_pos hconf]
    refine ⟨?_, ?_, ?_⟩
    · intro hd
      rw [if_pos hd]
      rfl
    · intro hd
      rw [if_neg (by rw [hd]; decide), if_pos hd]
      rfl
    · intro hd
      rw [if_neg (by rw [hd]; decide), if_neg (by rw [hd]; decide)]
      rfl
  · intro hlt
    unfold applyVerdictRow
    rw [if_neg (not_not_intro h), if_neg (not_le.mpr hlt)]
    rfl
  · decide

theorem c3_confidence_gate_witness :
    pyStrip rowBatteries.decision = "" ∧
    ((mkRat 7 10 ≤ (⟨"exclude", "r", mkRat 9 10⟩ : Verdict).confidence →
      (((⟨"exclude", "r", mkRat 9 10⟩ : Verdict).decision = "exclude" →
        (applyVerdictRow (mkRat 7 10) rowBatteries ⟨"exclude", "r", mkRat 9 10⟩).decision = "Auto Exclude") ∧
       ((⟨"exclude", "r", mkRat 9 10⟩ : Verdict).decision = "allow" →
        (applyVerdictRow (mkRat 7 10) rowBatteries ⟨"exclude", "r", mkRat 9 10⟩).decision = "Allow") ∧
       ((⟨"exclude", "r", mkRat 9 10⟩ : Verdict).decision = "review" →
        (applyVerdictRow (mkRat 7 10) rowBatteries ⟨"exclude", "r", mkRat 9 10⟩).decision = "Review"))) ∧
     ((⟨"exclude", "r", mkRat 9 10⟩ : Verdict).confidence < mkRat 7 10 →
      (applyVerdictRow (mkRat 7 10) rowBatteries ⟨"exclude", "r", mkRat 9 10⟩).decision = "Review") ∧
     (applyVerdictRow (mkRat 7 10) rowBatteries
        { decision := "exclude", reason := "low", confidence := mkRat 1 2 }).decision = "Review") :=
  ⟨by decide, c3_confidence_gate (mkRat 7 10) rowBatteries ⟨"exclude", "r", mkRat 9 10⟩ (by decide)⟩


/-- C4: once the deterministic pass has set Auto Exclude or
Restricted (Compliant), the decision is terminal: no restricted-group
pass and no step of the AI phase changes it, so it survives the whole
run unchanged. -/
theorem c4_terminal_decisions :
    (∀ (cfg : AgentCfg) (cols : List String) (g : GroupKey) (r : RowState),
       (r.decision = "Auto Exclude" ∨ r.decision = "Restricted (Compliant)") →
       (handle_group cfg cols g r).decision = r.decision) ∧
    (∀ (thr : ℚ) (results : List (String × Verdict)) (r : RowState),
       (r.decision = "Auto Exclude" ∨ r.decision = "Restricted (Compliant)") →
       aiPassRow thr results r = r) ∧
    (∀ (cfg : AgentCfg) (cols : List String) (results : List (String × Verdict)) (r : RowState),
       ((manualPassRow cfg cols r).decision = "Auto Exclude" ∨
        (manualPassRow cfg cols r).decision = "Restricted (Compliant)") →
       (fullRunRow cfg cols results r).decision = (manualPassRow cfg cols r).decision) := by
  refine ⟨?_, ?_, ?_⟩
  · intro cfg cols g r h
    have hne : ¬ pyStrip r.decision = "" := by
      rcases h with h | h <;> rw [h] <;> decide
    exact handle_group_decision_of_nonempty cfg cols g hne
  · intro thr results r h
    exact aiPassRow_eq_of_final thr results h
  · intro cfg cols results r h
    show (aiPassRow cfg.ai_confidence_threshold results (manualPassRow cfg cols r)).decision
      = (manualPassRow cfg cols r).decision
    rw [aiPassRow_eq_of_final cfg.ai_confidence_threshold results h]

theorem c4_terminal_decisions_witness :
    (({ rowBatteries with decision := "Auto Exclude" } : RowState).decision = "Auto Exclude" ∨
     ({ rowBatteries with decision := "Auto Exclude" } : RowState).decision = "Restricted (Compliant)") ∧
    ((manualPassRow cfgFire [] rowFire).decision = "Auto Exclude" ∨
     (manualPassRow cfgFire [] rowFire).decision = "Restricted (Compliant)") ∧
    (handle_group cfgBeer ["IS_ALCOHOL"] GroupKey.alcohol
        { rowBatteries with decision := "Auto Exclude" }).decision
      = ({ rowBatteries with decision := "Auto Exclude" } : RowState).decision ∧
    aiPassRow (mkRat 7 10) resultsCorona { rowBatteries with decision := "Auto Exclude" }
      = { rowBatteries with decision := "Auto Exclude" } ∧
    (fullRunRow cfgFire [] resultsCorona rowFire).decision
      = (manualPassRow cfgFire [] rowFire).decision :=
  ⟨by decide, by decide,
   c4_terminal_decisions.1 cfgBeer ["IS_ALCOHOL"] GroupKey.alcohol _ (by decide),
   c4_terminal_decisions.2.1 (mkRat 7 10) resultsCorona _ (by decide),
   c4_terminal_decisions.2.2 cfgFire [] resultsCorona rowFire (by decide)⟩

/-- C5: in the restricted-group pass, for a matched and still-unresolved
item, a present and truthy flag column yields Restricted (Compliant)
with the compliant note, a present but falsy flag column yields Review
with the missing-flag note, and an absent flag column yields Review with
the distinct not-found note. -/
theorem c5_restricted_group_pass (cfg : AgentCfg) (cols : List String) (g : GroupKey)
    (r : RowState)
    (hkw : (cfg.groupKeywords g).any (rowMatch r) = true)
    (hdec : pyStrip r.decision = "") :
    (∀ col, findFlagCol cols (flag_columns g) = some col →
      (bool_from_cell (cellOf r col) = true →
        (handle_group cfg cols g r).decision = "Restricted (Compliant)" ∧
        (handle_group cfg cols g r).issues = r.issues ++ compliantNote g) ∧
      (bool_from_cell (cellOf r col) = false →
        (handle_group cfg cols g r).decision = "Review" ∧
        (handle_group cfg cols g r).issues = r.issues ++ missingFlagNote g)) ∧
    (findFlagCol cols (flag_columns g) = none →
      (handle_group cfg cols g r).decision = "Review" ∧
      (handle_group cfg cols g r).issues = r.issues ++ notFoundNote g) ∧
    missingFlagNote g ≠ notFoundNote g := by
  have hne : ¬ ((cfg.groupKeywords g).isEmpty = true) := by
    cases hl : cfg.groupKeywords g with
    | nil => rw [hl] at hkw; simp at hkw
    | cons a as => simp
  refine ⟨?_, ?_, ?_⟩
  · intro col hcol
    constructor
    · intro hb
      rw [handle_group_eq_some cfg cols g r col hne hcol, if_pos hkw, if_pos hb]
      unfold setIfEmpty
      rw [if_pos (show pyStrip (addIssue r (compliantNote g)).decision = "" from hdec)]
      exact ⟨rfl, rfl⟩
    · intro hb
      rw [handle_group_eq_some cfg cols g r col hne hcol, if_pos hkw,
        if_neg (by rw [hb]; decide)]
      unfold setIfEmpty
      rw [if_pos (show pyStrip (addIssue r (missingFlagNote g)).decision = "" from hdec)]
      exact ⟨rfl, rfl⟩
  · intro hcol
    rw [handle_group_eq_none cfg cols g r hne hcol, if_pos hkw]
    unfold setIfEmpty
    rw [if_pos (show pyStrip (addIssue r (notFoundNote g)).decision = "" from hdec)]
    exact ⟨rfl, rfl⟩
  · cases g <;> decide

theorem c5_restricted_group_pass_witness :
    (cfgBeer.groupKeywords GroupKey.alcohol).any
      (rowMatch { rowCorona with cells := [("IS_ALCOHOL", Cell.bool true)] }) = true ∧
    pyStrip ({ rowCorona with cells := [("IS_ALCOHOL", Cell.bool true)] } : RowState).decision = "" ∧
    bool_from_cell (cellOf { rowCorona with cells := [("IS_ALCOHOL", Cell.bool true)] } "IS_ALCOHOL") = true ∧
    (handle_group cfgBeer ["IS_ALCOHOL"] GroupKey.alcohol
        { rowCorona with cells := [("IS_ALCOHOL", Cell.bool true)] }).decision
      = "Restricted (Compliant)" ∧
    (handle_group cfgBeer [] GroupKey.alcohol rowCorona).issues
      = rowCorona.issues ++ notFoundNote GroupKey.alcohol :=
  ⟨by decide, by decide, by decide,
   ((c5_restricted_group_pass cfgBeer ["IS_ALCOHOL"] GroupKey.alcohol
      { rowCorona with cells := [("IS_ALCOHOL", Cell.bool true)] }
      (by decide) (by decide)).1 "IS_ALCOHOL" (by decide)).1 (by decide) |>.1,
   ((c5_restricted_group_pass cfgBeer [] GroupKey.alcohol rowCorona
      (by decide) (by decide)).2.1 (by decide)).2⟩


theorem mem_decisionValues_applyAbs {r : RowState} (hr : r.decision ∈ decisionValues)
    (cfg : AgentCfg) : (applyAbs cfg r).decision ∈ decisionValues := by
  rcases applyAbs_decision cfg r with h | h <;> rw [h]
  · exact hr
  · decide

theorem mem_decisionValues_handle_group {r : RowState} (hr : r.decision ∈ decisionValues)
    (cfg : AgentCfg) (cols : List String) (g : GroupKey) :
    (handle_group cfg cols g r).decision ∈ decisionValues := by
  rcases handle_group_decision cfg cols g r with h | h | h <;> rw [h]
  · exact hr
  · decide
  · decide

theorem mem_decisionValues_aiPassRow {r : RowState} (hr : r.decision ∈ decisionValues)
    (thr : ℚ) (results : List (String × Verdict)) :
    (aiPassRow thr results r).decision ∈ decisionValues := by
  rcases aiPassRow_decision thr results r with h | h | h | h <;> rw [h]
  · exact hr
  · decide
  · decide
  · decide

/-- C10: starting from an unresolved item, a full engine run only ever
leaves a decision among blank, Auto Exclude, Restricted (Compliant),
Review and Allow; the Ignore value of the decision enumeration is never
assigned. -/
theorem c10_decision_range (cfg : AgentCfg) (cols : List String)
    (results : List (String × Verdict)) (r : RowState) (h : r.decision = "") :
    (fullRunRow cfg cols results r).decision ∈ decisionValues ∧
    (fullRunRow cfg cols results r).decision ≠ "Ignore" := by
  have h0 : r.decision ∈ decisionValues := by rw [h]; decide
  have hm :=
    mem_decisionValues_handle_group
      (mem_decisionValues_handle_group
        (mem_decisionValues_handle_group
          (mem_decisionValues_handle_group
            (mem_decisionValues_applyAbs h0 cfg) cfg cols GroupKey.alcohol)
          cfg cols GroupKey.cbd_thc)
        cfg cols GroupKey.nicotine)
      cfg cols GroupKey.otc_med
  have hfull : (fullRunRow cfg cols results r).decision ∈ decisionValues :=
    mem_decisionValues_aiPassRow hm cfg.ai_confidence_threshold results
  refine ⟨hfull, ?_⟩
  intro hc
  rw [hc] at hfull
  exact absurd hfull (by decide)

theorem c10_decision_range_witness :
    rowBatteries.decision = "" ∧
    ((fullRunRow cfgBeer [] [] rowBatteries).decision ∈ decisionValues ∧
     (fullRunRow cfgBeer [] [] rowBatteries).decision ≠ "Ignore") :=
  ⟨rfl, c10_decision_range cfgBeer [] [] rowBatteries rfl⟩

/-- C6: keyword matching is case-insensitive and matches only at word or
phrase boundaries, with OR semantics across the category and name
fields; the keyword gin does not match Original Recipe but does match
Gin and Tonic; and a structurally invalid boundary pattern falls back to
plain case-insensitive substring containment for that keyword only. -/
theorem c6_keyword_matching :
    (kwMaskStr "Original Recipe" "gin" = false ∧
     kwMaskStr "original recipe" "gin" = false ∧
     kwMaskStr "Gin and Tonic" "gin" = true ∧
     kwMaskStr "gin and tonic" "gin" = true) ∧
    (∀ s s' kw kw' : String,
       lowerList s.data = lowerList s'.data →
       lowerList kw.data = lowerList kw'.data →
       kwMaskStr s kw = kwMaskStr s' kw') ∧
    (∀ (r : RowState) (kw : String),
       rowMatch r kw = true ↔
         (kwMaskStr (pyLower r.l1) kw = true ∨ kwMaskStr (pyLower r.l2) kw = true ∨
          kwMaskStr (pyLower r.name) kw = true)) ∧
    (∀ p kw s : List Char, parseRe p = none → maskWithPattern p kw s = substrCI s kw) := by
  refine ⟨⟨by decide, by decide, by decide, by decide⟩, ?_, ?_, ?_⟩
  · intro s s' kw kw' hs hk
    exact kwMaskStr_ci hs hk
  · intro r kw
    simp [rowMatch, Bool.or_eq_true, or_assoc]
  · intro p kw s hp
    unfold maskWithPattern
    rw [hp]

theorem c6_keyword_matching_witness :
    lowerList ("Gin And Tonic").data = lowerList ("gin and tonic").data ∧
    lowerList ("GIN").data = lowerList ("gin").data ∧
    parseRe ['\\'] = none ∧
    kwMaskStr "Gin And Tonic" "GIN" = kwMaskStr "gin and tonic" "gin" ∧
    maskWithPattern ['\\'] ("gin").data ("gin and tonic").data
      = substrCI ("gin and tonic").data ("gin").data :=
  ⟨by decide, by decide, by decide,
   c6_keyword_matching.2.1 "Gin And Tonic" "gin and tonic" "GIN" "gin" (by decide) (by decide),
   c6_keyword_matching.2.2.2 ['\\'] ("gin").data ("gin and tonic").data (by decide)⟩


/-- C7 counterexample: the string " true" (leading blank) is not in the
truthy token set under case-insensitive comparison, yet the coercion
returns true, because the source strips surrounding whitespace before
comparing.  This refutes the clause that every value other than the
case-insensitive members of the set maps to false. -/
theorem c7_claim_counterexample :
    bool_from_cell (Cell.str " true") = true ∧ pyLower " true" ∉ trueTokens := by
  decide

/-- C7 amended: flag coercion is total and deterministic; native
booleans pass through, integers 1 and 0 map to true and false, missing
values map to false, and a string maps to true exactly when its
whitespace-trimmed, lower-cased form is one of the truthy tokens; in
particular the spec examples all coerce as listed. -/
theorem c7_flag_coercion :
    (∀ b, bool_from_cell (Cell.bool b) = b) ∧
    bool_from_cell Cell.na = false ∧
    bool_from_cell (Cell.int 1) = true ∧
    bool_from_cell (Cell.int 0) = false ∧
    (∀ s, bool_from_cell (Cell.str s) = trueTokens.contains (pyNorm s)) ∧
    (bool_from_cell (Cell.str "1") = true ∧
     bool_from_cell (Cell.str "true") = true ∧
     bool_from_cell (Cell.str "Yes") = true ∧
     bool_from_cell (Cell.str "y") = true ∧
     bool_from_cell (Cell.str "TRUE") = true ∧
     bool_from_cell (Cell.str "0") = false ∧
     bool_from_cell (Cell.str "false") = false ∧
     bool_from_cell (Cell.str "No") = false ∧
     bool_from_cell (Cell.str "") = false ∧
     bool_from_cell (Cell.str "null") = false) := by
  refine ⟨?_, by decide, by decide, by decide, ?_, by decide⟩
  · intro b
    cases b <;> rfl
  · intro s
    rfl

/-- C9: loading the policy document never raises; under a missing file, a
parse error and empty content the loader returns the empty guideline
list, construction of the engine configuration succeeds (it is a total
function), and the alcohol group falls back to the built-in default
keyword set, which is non-empty, for every load outcome. -/
theorem c9_policy_fallback :
    load_guidelines PolicyLoad.missingFile = [] ∧
    load_guidelines PolicyLoad.parseError = [] ∧
    load_guidelines (PolicyLoad.content []) = [] ∧
    (buildAgentCfg PolicyLoad.missingFile).groupKeywords GroupKey.alcohol
      = defaultAlcoholKeywords ∧
    (buildAgentCfg PolicyLoad.parseError).groupKeywords GroupKey.alcohol
      = defaultAlcoholKeywords ∧
    (buildAgentCfg (PolicyLoad.content [])).groupKeywords GroupKey.alcohol
      = defaultAlcoholKeywords ∧
    (buildAgentCfg PolicyLoad.missingFile).absolute_keywords = [] ∧
    (∀ pl, (buildAgentCfg pl).groupKeywords GroupKey.alcohol = defaultAlcoholKeywords) ∧
    (∀ pl, (buildAgentCfg pl).groupKeywords GroupKey.alcohol ≠ []) := by
  refine ⟨rfl, rfl, rfl, by decide, by decide, by decide, by decide, ?_, ?_⟩
  · intro pl
    rfl
  · intro pl
    rw [show (buildAgentCfg pl).groupKeywords GroupKey.alcohol = defaultAlcoholKeywords from rfl]
    decide

/-- C1: contrary to the claim, an item left at Review by the
deterministic pass is never upgraded by the AI pass: a high-confidence
exclude verdict only appends an informational AI note and the decision
stays Review; and an item already finalised as Auto Exclude is skipped
by the AI pass entirely, receiving no note at all. -/
theorem c1_review_not_upgraded :
    (manualPassRow cfgBeer ["IS_ALCOHOL"] rowCorona).decision = "Review" ∧
    (fullRunRow cfgBeer ["IS_ALCOHOL"] resultsCorona rowCorona).decision = "Review" ∧
    (fullRunRow cfgBeer ["IS_ALCOHOL"] resultsCorona rowCorona).issues
      = (manualPassRow cfgBeer ["IS_ALCOHOL"] rowCorona).issues ++ aiInfoNote vCorona ∧
    mkRat 7 10 ≤ vCorona.confidence ∧
    vCorona.decision = "exclude" ∧
    aiPassRow (mkRat 7 10) resultsCorona { rowBatteries with decision := "Auto Exclude" }
      = { rowBatteries with decision := "Auto Exclude" } := by
  decide

/-- C2: contrary to the claim, cache entries are stored under the
normalised item name alone while lookups use the composite key of
`_item_key`, so a lookup never hits; and two identical ambiguous rows
are both forwarded to the classifier within one run. -/
theorem c2_cache_key_mismatch :
    gather_ai_items [] [rowBatteries, rowBatteries]
      = [mkAIItem rowBatteries, mkAIItem rowBatteries] ∧
    cacheAfter [] respBatteries = [("aa batteries", vBatteries)] ∧
    item_key rowBatteries = "aa batteries|electronics|||||" ∧
    lookupResult (cacheAfter [] respBatteries) "aa batteries" = some vBatteries ∧
    lookupResult (cacheAfter [] respBatteries) (item_key rowBatteries) = none ∧
    gather_ai_items (cacheAfter [] respBatteries) [rowBatteries] = [mkAIItem rowBatteries] := by
  decide

/-- C8 counterexample: a parseable response whose results entry is not
an object raises instead of being discarded, so the remaining batches
are not processed; the same well-formed batch alone succeeds. -/
theorem c8_claim_counterexample :
    ai_review respBadShape = ([], some "AttributeError") ∧
    runBatches [respBadShape, respBatteries] = Except.error "AttributeError" ∧
    runBatches [respBatteries] = Except.ok [("aa batteries", vBatteries)] :=
  ⟨by decide, rfl, rfl⟩

/-- C8 amended: a response that fails JSON parsing (or is not even a
string, or is the error dictionary produced on transport failures) is
discarded wholesale: it contributes no verdicts, the run continues with
the remaining batches, and with no verdicts for a batch every row keeps
its prior decision state.  A parseable response of unexpected shape,
however, raises and is not covered by this guarantee. -/
theorem c8_parse_failure_discarded :
    (∀ bs, runBatches (RawResp.strBad :: bs) = runBatches bs) ∧
    (∀ bs, runBatches (RawResp.nonStrOther :: bs) = runBatches bs) ∧
    (∀ e bs, runBatches (RawResp.dict [("error", JVal.jstr e)] :: bs) = runBatches bs) ∧
    ai_review RawResp.strBad = ([], none) ∧
    (∀ thr r, aiPassRow thr [] r = r) := by
  refine ⟨fun bs => rfl, fun bs => rfl, fun e bs => rfl, rfl, ?_⟩
  intro thr r
  unfold aiPassRow
  split <;> rfl

end ExclusionModel
